import Mathlib

/-!
Shallow embedding of the beam-analysis engine (`src/js/beam-analysis.js`).

The JavaScript source contains two variants of the engine, separated by a
document marker: the primary variant (first part of the file) and a second
variant (after the marker) whose `simplySupported.getDeflectionEquation`
reads the calibration scalar `j2` once at construction time and uses a
different deflection formula.  Both are embedded below; the second variant
lives in namespace `variant2`.

Numbers are modelled by `ℚ` (exact arithmetic; the JS source works with
IEEE doubles, and the claims are settled in the exact-arithmetic reading).
JavaScript `undefined` values — produced when a `let`-declared variable is
returned without ever being assigned — are modelled by `Option ℚ`
(`none` = undefined / NaN result).  The ambient DOM read `floatVal("j2")`
is modelled by an explicit environment argument `Env` supplied at the
moment the closure is evaluated, mirroring the fact that the source reads
the ambient value anew on every call.
-/

/-- `Material.properties` object; only the key `EI` is ever read. -/
structure MaterialProps where
  EI : ℚ
deriving DecidableEq, Repr

/-- `class Material { constructor(name, properties) ... }` -/
structure Material where
  name : String
  properties : MaterialProps
deriving DecidableEq, Repr

/-- `class Beam { constructor(primarySpan, secondarySpan, material) ... }` -/
structure Beam where
  primarySpan : ℚ
  secondarySpan : ℚ
  material : Material
deriving DecidableEq, Repr

/-- Return value of `Beam.calculateReactions`. -/
structure Reactions where
  M1 : ℚ
  R1 : ℚ
  R2 : ℚ
  R3 : ℚ
deriving DecidableEq, Repr

/-- `Beam.calculateReactions(w, L1, L2)` from the source:
`M1 = -(w*L1**3 + w*L2**3) / (8*(L1+L2))`, `R1 = M1/L1 + w*L1/2`,
`R3 = M1/L2 + w*L2/2`, `R2 = w*(L1+L2) - R1 - R3`. -/
def Beam.calculateReactions (_self : Beam) (w L1 L2 : ℚ) : Reactions :=
  let M1 := -(w * L1 ^ 3 + w * L2 ^ 3) / (8 * (L1 + L2))
  let R1 := M1 / L1 + (w * L1) / 2
  let R3 := M1 / L2 + (w * L2) / 2
  let R2 := w * (L1 + L2) - R1 - R3
  { M1 := M1, R1 := R1, R2 := R2, R3 := R3 }

/-- `{x, y}` point returned by the equation closures whose `y` is always
a number. -/
structure Point where
  x : ℚ
  y : ℚ
deriving DecidableEq, Repr

/-- `{x, y}` point whose `y` may be the JS `undefined` (no branch assigned
the variable) — modelled as `none`. -/
structure PointOpt where
  x : ℚ
  y : Option ℚ
deriving DecidableEq, Repr

/-- Ambient document state at the moment an equation closure is invoked.
The engine reads exactly one piece of it, the calibration input fetched by
`floatVal("j2")`; `other` stands for the rest of the page state, which the
engine never reads. -/
structure Env where
  j2 : ℚ
  other : ℚ
deriving DecidableEq, Repr

namespace BeamAnalysis
namespace analyzer
namespace simplySupported

/-- `simplySupported.getDeflectionEquation` (primary variant):
`delta = -((w*x)/(24*EI)) * (L^3 - 2*L*x^2 + x^3) * 1000` with
`EI = beam.material.properties.EI / 1e8`. -/
def getDeflectionEquation (beam : Beam) (load : ℚ) : ℚ → Point := fun x =>
  let L := beam.primarySpan
  let EI := beam.material.properties.EI / 100000000
  let w := load
  let delta := -((w * x) / (24 * EI)) * (L ^ 3 - 2 * L * x ^ 2 + x ^ 3) * 1000
  { x := x, y := delta }

/-- `simplySupported.getBendingMomentEquation`: `M = w*x*(L-x)/2`. -/
def getBendingMomentEquation (beam : Beam) (load : ℚ) : ℚ → Point := fun x =>
  let L := beam.primarySpan
  let w := load
  { x := x, y := (w * x * (L - x)) / 2 }

/-- `simplySupported.getShearForceEquation`: `V = w*(L/2 - x)`. -/
def getShearForceEquation (beam : Beam) (load : ℚ) : ℚ → Point := fun x =>
  let L := beam.primarySpan
  let w := load
  { x := x, y := w * (L / 2 - x) }

end simplySupported

namespace twoSpanUnequal

/-- Internal reaction `R1` used only by the two-span deflection closure:
`R1 = (w * L1 * (3*L2 + 2*L1)) / (2 * (L1 + L2))`. -/
def deflectionR1 (w L1 L2 : ℚ) : ℚ :=
  (w * L1 * (3 * L2 + 2 * L1)) / (2 * (L1 + L2))

/-- `twoSpanUnequal.getDeflectionEquation` (primary variant).  The closure
reads `j2 = floatVal("j2")` on every call, hence the `Env` argument on the
returned function.  `EI = beam.material.properties.EI / 1e7`.  The two arms
of the `L1 === L2` test are textually identical in the source; for
`x > L1 + L2` neither arm assigns `delta`, so `y` is the JS
`undefined * 1000 * j2` (modelled as `none`). -/
def getDeflectionEquation (beam : Beam) (load : ℚ) : Env → ℚ → PointOpt :=
  fun env x =>
    let j2 := env.j2
    let L1 := beam.primarySpan
    let L2 := beam.secondarySpan
    let w := load
    let EI := beam.material.properties.EI / 10000000
    let R1 := deflectionR1 w L1 L2
    let R2 := w * (L1 + L2) - R1
    let delta : Option ℚ :=
      if L1 = L2 then
        if x ≤ L1 then
          some (((w * x ^ 2) / (24 * EI)) * (6 * L1 ^ 2 - 4 * L1 * x + x ^ 2)
            - (R1 * x ^ 3) / (6 * EI))
        else if x ≤ L1 + L2 then
          some ((w * L1 ^ 3) / (6 * EI) - (R1 * L1 ^ 2) / (2 * EI)
            + (R2 * (x - L1) ^ 3) / (6 * EI) - (w * (x - L1) ^ 4) / (24 * EI))
        else none
      else
        if x ≤ L1 then
          some (((w * x ^ 2) / (24 * EI)) * (6 * L1 ^ 2 - 4 * L1 * x + x ^ 2)
            - (R1 * x ^ 3) / (6 * EI))
        else if x ≤ L1 + L2 then
          some ((w * L1 ^ 3) / (6 * EI) - (R1 * L1 ^ 2) / (2 * EI)
            + (R2 * (x - L1) ^ 3) / (6 * EI) - (w * (x - L1) ^ 4) / (24 * EI))
        else none
    { x := x, y := delta.map (fun d => d * 1000 * j2) }

/-- The deflection value computed by the general (`L1 !== L2`) branch of
`twoSpanUnequal.getDeflectionEquation`, as a standalone function. -/
def deflectionGeneralCase (beam : Beam) (load : ℚ) : Env → ℚ → PointOpt :=
  fun env x =>
    let j2 := env.j2
    let L1 := beam.primarySpan
    let L2 := beam.secondarySpan
    let w := load
    let EI := beam.material.properties.EI / 10000000
    let R1 := deflectionR1 w L1 L2
    let R2 := w * (L1 + L2) - R1
    let delta : Option ℚ :=
      if x ≤ L1 then
        some (((w * x ^ 2) / (24 * EI)) * (6 * L1 ^ 2 - 4 * L1 * x + x ^ 2)
          - (R1 * x ^ 3) / (6 * EI))
      else if x ≤ L1 + L2 then
        some ((w * L1 ^ 3) / (6 * EI) - (R1 * L1 ^ 2) / (2 * EI)
          + (R2 * (x - L1) ^ 3) / (6 * EI) - (w * (x - L1) ^ 4) / (24 * EI))
      else none
    { x := x, y := delta.map (fun d => d * 1000 * j2) }

/-- `twoSpanUnequal.getBendingMomentEquation` (primary variant); reactions
come from `beam.calculateReactions(load, L1, L2)`.  Both arms of the
`L1 === L2` test are textually identical in the source. -/
def getBendingMomentEquation (beam : Beam) (load : ℚ) : ℚ → Point :=
  fun x =>
    let L1 := beam.primarySpan
    let L2 := beam.secondarySpan
    let w := load
    let reactions := beam.calculateReactions load L1 L2
    let R1 := reactions.R1
    let R2 := reactions.R2
    if L1 = L2 then
      if L1 + L2 < x then { x := x, y := 0 }
      else if x ≤ L1 then { x := x, y := R1 * x - (w * x ^ 2) / 2 }
      else { x := x, y := R1 * x + R2 * (x - L1) - (w * x ^ 2) / 2 }
    else
      if L1 + L2 < x then { x := x, y := 0 }
      else if x ≤ L1 then { x := x, y := R1 * x - (w * x ^ 2) / 2 }
      else { x := x, y := R1 * x + R2 * (x - L1) - (w * x ^ 2) / 2 }

/-- The bending-moment value computed by the general (`L1 !== L2`) branch,
as a standalone function. -/
def momentGeneralCase (beam : Beam) (load : ℚ) : ℚ → Point :=
  fun x =>
    let L1 := beam.primarySpan
    let L2 := beam.secondarySpan
    let w := load
    let reactions := beam.calculateReactions load L1 L2
    let R1 := reactions.R1
    let R2 := reactions.R2
    if L1 + L2 < x then { x := x, y := 0 }
    else if x ≤ L1 then { x := x, y := R1 * x - (w * x ^ 2) / 2 }
    else { x := x, y := R1 * x + R2 * (x - L1) - (w * x ^ 2) / 2 }

/-- `twoSpanUnequal.getShearForceEquation` (primary variant).  The
`L1 === L2` arm covers every `x`; the general arm is an
`x === 0 / x < L1 / x === L1 / x < L1+L2 / x === L1+L2` chain with no
final else, so `V` stays undefined (`none`) for `x > L1 + L2`. -/
def getShearForceEquation (beam : Beam) (load : ℚ) : ℚ → PointOpt :=
  fun x =>
    let L1 := beam.primarySpan
    let L2 := beam.secondarySpan
    let w := load
    let reactions := beam.calculateReactions w L1 L2
    let R1 := reactions.R1
    let R2 := reactions.R2
    if L1 = L2 then
      if L1 + L2 < x then { x := x, y := some 0 }
      else if x ≤ L1 then { x := x, y := some (R1 - w * x) }
      else { x := x, y := some (R1 + R2 - w * x) }
    else
      if x = 0 then { x := x, y := some R1 }
      else if x < L1 then { x := x, y := some (R1 - w * x) }
      else if x = L1 then { x := x, y := some (R1 - w * L1) }
      else if x < L1 + L2 then { x := x, y := some (R1 + R2 - w * x) }
      else if x = L1 + L2 then { x := x, y := some (R1 + R2 - w * (L1 + L2)) }
      else { x := x, y := none }

/-- The shear-force value computed by the general (`L1 !== L2`) branch, as
a standalone function. -/
def shearGeneralCase (beam : Beam) (load : ℚ) : ℚ → PointOpt :=
  fun x =>
    let L1 := beam.primarySpan
    let L2 := beam.secondarySpan
    let w := load
    let reactions := beam.calculateReactions w L1 L2
    let R1 := reactions.R1
    let R2 := reactions.R2
    if x = 0 then { x := x, y := some R1 }
    else if x < L1 then { x := x, y := some (R1 - w * x) }
    else if x = L1 then { x := x, y := some (R1 - w * L1) }
    else if x < L1 + L2 then { x := x, y := some (R1 + R2 - w * x) }
    else if x = L1 + L2 then { x := x, y := some (R1 + R2 - w * (L1 + L2)) }
    else { x := x, y := none }

end twoSpanUnequal
end analyzer

/-- The two analyzer instances held in `this.analyzer`, keyed by condition
string. -/
inductive AnalyzerKind where
  | simplySupportedKind
  | twoSpanUnequalKind
deriving DecidableEq, Repr

/-- The lookup `this.analyzer[condition]`: the table has exactly the keys
`'simply-supported'` and `'two-span-unequal'`. -/
def lookupAnalyzer (condition : String) : Option AnalyzerKind :=
  if condition = "simply-supported" then some .simplySupportedKind
  else if condition = "two-span-unequal" then some .twoSpanUnequalKind
  else none

/-- The thrown `new Error('Invalid condition')` — the spec's
`UnsupportedConditionError`. -/
structure JsError where
  message : String
deriving DecidableEq, Repr

/-- Equations returned through the engine, in a uniform shape: the ambient
environment is sampled at each evaluation (only the two-span deflection
closure actually reads it), and `y` may be undefined. -/
def Equation : Type := Env → ℚ → PointOpt

/-- Lift a total equation (one that never leaves `y` unassigned and never
reads the ambient state) into the uniform shape. -/
def liftEquation (f : ℚ → Point) : Equation :=
  fun _ x => { x := (f x).x, y := some (f x).y }

/-- `{beam, load, equation}` returned by the engine query methods. -/
structure AnalysisResult where
  beam : Beam
  load : ℚ
  equation : Equation

/-- Equation dispatch for `getDeflection`. -/
def deflectionEquationFor : AnalyzerKind → Beam → ℚ → Equation
  | .simplySupportedKind, beam, load =>
      liftEquation (analyzer.simplySupported.getDeflectionEquation beam load)
  | .twoSpanUnequalKind, beam, load =>
      analyzer.twoSpanUnequal.getDeflectionEquation beam load

/-- Equation dispatch for `getBendingMoment`. -/
def momentEquationFor : AnalyzerKind → Beam → ℚ → Equation
  | .simplySupportedKind, beam, load =>
      liftEquation (analyzer.simplySupported.getBendingMomentEquation beam load)
  | .twoSpanUnequalKind, beam, load =>
      fun _ x => let p := analyzer.twoSpanUnequal.getBendingMomentEquation beam load x
        { x := p.x, y := some p.y }

/-- Equation dispatch for `getShearForce`. -/
def shearEquationFor : AnalyzerKind → Beam → ℚ → Equation
  | .simplySupportedKind, beam, load =>
      liftEquation (analyzer.simplySupported.getShearForceEquation beam load)
  | .twoSpanUnequalKind, beam, load =>
      fun _ x => analyzer.twoSpanUnequal.getShearForceEquation beam load x

/-- `BeamAnalysis.getDeflection(beam, load, condition)`: look up the
analyzer; absent → throw `Error('Invalid condition')`. -/
def getDeflection (beam : Beam) (load : ℚ) (condition : String) :
    Except JsError AnalysisResult :=
  match lookupAnalyzer condition with
  | some k => .ok { beam := beam, load := load, equation := deflectionEquationFor k beam load }
  | none => .error { message := "Invalid condition" }

/-- `BeamAnalysis.getBendingMoment(beam, load, condition)`. -/
def getBendingMoment (beam : Beam) (load : ℚ) (condition : String) :
    Except JsError AnalysisResult :=
  match lookupAnalyzer condition with
  | some k => .ok { beam := beam, load := load, equation := momentEquationFor k beam load }
  | none => .error { message := "Invalid condition" }

/-- `BeamAnalysis.getShearForce(beam, load, condition)`. -/
def getShearForce (beam : Beam) (load : ℚ) (condition : String) :
    Except JsError AnalysisResult :=
  match lookupAnalyzer condition with
  | some k => .ok { beam := beam, load := load, equation := shearEquationFor k beam load }
  | none => .error { message := "Invalid condition" }

end BeamAnalysis

namespace variant2
namespace simplySupported

/-- Second variant of `simplySupported.getDeflectionEquation` (after the
document marker in the source file): `j2 = floatVal("j2")` is read once,
outside the returned closure; `EI` is used raw (no rescale);
`delta = (w * x * x * (3*L - x)) / (6 * EI)`; `y = delta * 1000 * j2`. -/
def getDeflectionEquation (beam : Beam) (load : ℚ) (env : Env) : ℚ → Point :=
  let j2 := env.j2
  fun x =>
    let L := beam.primarySpan
    let EI := beam.material.properties.EI
    let w := load
    let delta := (w * x * x * (3 * L - x)) / (6 * EI)
    { x := x, y := delta * 1000 * j2 }

end simplySupported
end variant2

/-! ## Claims -/

/-- A concrete material used by witnesses. -/
def steelW : Material := { name := "steel", properties := { EI := 100000000 } }

/-- C1: for every load `w` and spans `L1 > 0`, `L2 > 0`, the reactions of
`Beam.calculateReactions` satisfy vertical static equilibrium:
`R1 + R2 + R3 = w * (L1 + L2)` exactly (in exact arithmetic). -/
theorem C1_reactions_equilibrium (beam : Beam) (w L1 L2 : ℚ)
    (hL1 : 0 < L1) (hL2 : 0 < L2) :
    (beam.calculateReactions w L1 L2).R1 + (beam.calculateReactions w L1 L2).R2
      + (beam.calculateReactions w L1 L2).R3 = w * (L1 + L2) := by
  simp only [Beam.calculateReactions]
  ring

/-- Witness for C1 at `w = 10`, `L1 = 3`, `L2 = 5`. -/
theorem C1_reactions_equilibrium_witness :
    (0:ℚ) < 3 ∧ (0:ℚ) < 5 ∧
    ((Beam.mk 3 5 steelW).calculateReactions 10 3 5).R1
      + ((Beam.mk 3 5 steelW).calculateReactions 10 3 5).R2
      + ((Beam.mk 3 5 steelW).calculateReactions 10 3 5).R3 = 10 * (3 + 5) :=
  ⟨by norm_num, by norm_num,
    C1_reactions_equilibrium (Beam.mk 3 5 steelW) 10 3 5 (by norm_num) (by norm_num)⟩

/-- C2: each of `getDeflection`, `getBendingMoment`, `getShearForce`
called with a condition outside `{simply-supported, two-span-unequal}`
fails with the unsupported-condition error (`Error('Invalid condition')`)
instead of returning a result. -/
theorem C2_unknown_condition_errors (beam : Beam) (load : ℚ) (condition : String)
    (h1 : condition ≠ "simply-supported") (h2 : condition ≠ "two-span-unequal") :
    BeamAnalysis.getDeflection beam load condition
        = .error { message := "Invalid condition" } ∧
    BeamAnalysis.getBendingMoment beam load condition
        = .error { message := "Invalid condition" } ∧
    BeamAnalysis.getShearForce beam load condition
        = .error { message := "Invalid condition" } := by
  have hl : BeamAnalysis.lookupAnalyzer condition = none := by
    simp [BeamAnalysis.lookupAnalyzer, h1, h2]
  exact ⟨by simp [BeamAnalysis.getDeflection, hl],
    by simp [BeamAnalysis.getBendingMoment, hl],
    by simp [BeamAnalysis.getShearForce, hl]⟩

/-- Witness for C2 at `condition = "nonexistent"`. -/
theorem C2_unknown_condition_errors_witness :
    "nonexistent" ≠ "simply-supported" ∧ "nonexistent" ≠ "two-span-unequal" ∧
    (BeamAnalysis.getDeflection (Beam.mk 4 0 steelW) 10 "nonexistent"
        = .error { message := "Invalid condition" } ∧
     BeamAnalysis.getBendingMoment (Beam.mk 4 0 steelW) 10 "nonexistent"
        = .error { message := "Invalid condition" } ∧
     BeamAnalysis.getShearForce (Beam.mk 4 0 steelW) 10 "nonexistent"
        = .error { message := "Invalid condition" }) :=
  ⟨by decide, by decide,
    C2_unknown_condition_errors (Beam.mk 4 0 steelW) 10 "nonexistent"
      (by decide) (by decide)⟩

/-- C4: the simply-supported bending-moment equation is `0` at `x = 0` and
at `x = L`, equals `w·L²/8` at `x = L/2`, and for `w > 0` the midspan
value bounds the value at every `x ∈ [0, L]`. -/
theorem C4_simplySupported_moment_shape (beam : Beam) (w x : ℚ)
    (hL : 0 < beam.primarySpan) (hw : 0 < w)
    (hx0 : 0 ≤ x) (hxL : x ≤ beam.primarySpan) :
    (BeamAnalysis.analyzer.simplySupported.getBendingMomentEquation beam w 0).y = 0 ∧
    (BeamAnalysis.analyzer.simplySupported.getBendingMomentEquation beam w
        beam.primarySpan).y = 0 ∧
    (BeamAnalysis.analyzer.simplySupported.getBendingMomentEquation beam w
        (beam.primarySpan / 2)).y = w * beam.primarySpan ^ 2 / 8 ∧
    (BeamAnalysis.analyzer.simplySupported.getBendingMomentEquation beam w x).y ≤
      (BeamAnalysis.analyzer.simplySupported.getBendingMomentEquation beam w
        (beam.primarySpan / 2)).y := by
  simp only [BeamAnalysis.analyzer.simplySupported.getBendingMomentEquation]
  refine ⟨by ring, by ring, by ring, ?_⟩
  nlinarith [mul_nonneg hw.le (sq_nonneg (beam.primarySpan / 2 - x))]

/-- Witness for C4 at `L = 4`, `w = 10`, `x = 1`. -/
theorem C4_simplySupported_moment_shape_witness :
    (0:ℚ) < (Beam.mk 4 0 steelW).primarySpan ∧ (0:ℚ) < 10 ∧ (0:ℚ) ≤ 1 ∧
      (1:ℚ) ≤ (Beam.mk 4 0 steelW).primarySpan ∧
    ((BeamAnalysis.analyzer.simplySupported.getBendingMomentEquation
        (Beam.mk 4 0 steelW) 10 0).y = 0 ∧
     (BeamAnalysis.analyzer.simplySupported.getBendingMomentEquation
        (Beam.mk 4 0 steelW) 10 (Beam.mk 4 0 steelW).primarySpan).y = 0 ∧
     (BeamAnalysis.analyzer.simplySupported.getBendingMomentEquation
        (Beam.mk 4 0 steelW) 10 ((Beam.mk 4 0 steelW).primarySpan / 2)).y
        = 10 * (Beam.mk 4 0 steelW).primarySpan ^ 2 / 8 ∧
     (BeamAnalysis.analyzer.simplySupported.getBendingMomentEquation
        (Beam.mk 4 0 steelW) 10 1).y ≤
       (BeamAnalysis.analyzer.simplySupported.getBendingMomentEquation
        (Beam.mk 4 0 steelW) 10 ((Beam.mk 4 0 steelW).primarySpan / 2)).y) :=
  ⟨by norm_num [Beam.primarySpan], by norm_num, by norm_num,
    by norm_num [Beam.primarySpan],
    C4_simplySupported_moment_shape (Beam.mk 4 0 steelW) 10 1
      (by norm_num [Beam.primarySpan]) (by norm_num) (by norm_num)
      (by norm_num [Beam.primarySpan])⟩

/-- C3: with `R1`, `R2` from the reaction solver, the two-span
bending-moment formulas of the first and second span agree at `x = L1`
(`R1·L1 − w·L1²/2 = R1·L1 + R2·(L1−L1) − w·L1²/2`, which is also the
value the moment equation returns there), and the right-span shear
formula minus the left-span shear formula at `x = L1` is exactly `R2`. -/
theorem C3_twoSpan_junction (beam : Beam) (w : ℚ)
    (hL1 : 0 < beam.primarySpan) (hL2 : 0 < beam.secondarySpan) :
    ((beam.calculateReactions w beam.primarySpan beam.secondarySpan).R1 * beam.primarySpan
        - w * beam.primarySpan ^ 2 / 2
      = (beam.calculateReactions w beam.primarySpan beam.secondarySpan).R1 * beam.primarySpan
        + (beam.calculateReactions w beam.primarySpan beam.secondarySpan).R2
          * (beam.primarySpan - beam.primarySpan)
        - w * beam.primarySpan ^ 2 / 2) ∧
    (((beam.calculateReactions w beam.primarySpan beam.secondarySpan).R1
        + (beam.calculateReactions w beam.primarySpan beam.secondarySpan).R2
        - w * beam.primarySpan)
      - ((beam.calculateReactions w beam.primarySpan beam.secondarySpan).R1
        - w * beam.primarySpan)
      = (beam.calculateReactions w beam.primarySpan beam.secondarySpan).R2) ∧
    (BeamAnalysis.analyzer.twoSpanUnequal.getBendingMomentEquation beam w
        beam.primarySpan).y
      = (beam.calculateReactions w beam.primarySpan beam.secondarySpan).R1
          * beam.primarySpan - w * beam.primarySpan ^ 2 / 2 := by
  refine ⟨by ring, by ring, ?_⟩
  have hnot : ¬ (beam.primarySpan + beam.secondarySpan < beam.primarySpan) := by
    linarith
  have hnn : ¬ (beam.secondarySpan < 0) := by linarith
  by_cases h : beam.primarySpan = beam.secondarySpan <;>
    simp [BeamAnalysis.analyzer.twoSpanUnequal.getBendingMomentEquation, h, hnot, hnn]

/-- Witness for C3 at `w = 10`, `L1 = 3`, `L2 = 5`. -/
theorem C3_twoSpan_junction_witness :
    (0:ℚ) < (Beam.mk 3 5 steelW).primarySpan ∧
    (0:ℚ) < (Beam.mk 3 5 steelW).secondarySpan ∧
    ((((Beam.mk 3 5 steelW).calculateReactions 10 (Beam.mk 3 5 steelW).primarySpan
          (Beam.mk 3 5 steelW).secondarySpan).R1 * (Beam.mk 3 5 steelW).primarySpan
        - 10 * (Beam.mk 3 5 steelW).primarySpan ^ 2 / 2
      = ((Beam.mk 3 5 steelW).calculateReactions 10 (Beam.mk 3 5 steelW).primarySpan
          (Beam.mk 3 5 steelW).secondarySpan).R1 * (Beam.mk 3 5 steelW).primarySpan
        + ((Beam.mk 3 5 steelW).calculateReactions 10 (Beam.mk 3 5 steelW).primarySpan
          (Beam.mk 3 5 steelW).secondarySpan).R2
          * ((Beam.mk 3 5 steelW).primarySpan - (Beam.mk 3 5 steelW).primarySpan)
        - 10 * (Beam.mk 3 5 steelW).primarySpan ^ 2 / 2) ∧
    ((((Beam.mk 3 5 steelW).calculateReactions 10 (Beam.mk 3 5 steelW).primarySpan
          (Beam.mk 3 5 steelW).secondarySpan).R1
        + ((Beam.mk 3 5 steelW).calculateReactions 10 (Beam.mk 3 5 steelW).primarySpan
          (Beam.mk 3 5 steelW).secondarySpan).R2
        - 10 * (Beam.mk 3 5 steelW).primarySpan)
      - ((((Beam.mk 3 5 steelW).calculateReactions 10 (Beam.mk 3 5 steelW).primarySpan
          (Beam.mk 3 5 steelW).secondarySpan)).R1
        - 10 * (Beam.mk 3 5 steelW).primarySpan)
      = ((Beam.mk 3 5 steelW).calculateReactions 10 (Beam.mk 3 5 steelW).primarySpan
          (Beam.mk 3 5 steelW).secondarySpan).R2) ∧
    (BeamAnalysis.analyzer.twoSpanUnequal.getBendingMomentEquation (Beam.mk 3 5 steelW) 10
        (Beam.mk 3 5 steelW).primarySpan).y
      = ((Beam.mk 3 5 steelW).calculateReactions 10 (Beam.mk 3 5 steelW).primarySpan
          (Beam.mk 3 5 steelW).secondarySpan).R1
          * (Beam.mk 3 5 steelW).primarySpan
        - 10 * (Beam.mk 3 5 steelW).primarySpan ^ 2 / 2) :=
  ⟨by norm_num [Beam.primarySpan], by norm_num [Beam.secondarySpan],
    C3_twoSpan_junction (Beam.mk 3 5 steelW) 10
      (by norm_num [Beam.primarySpan]) (by norm_num [Beam.secondarySpan])⟩

/-- C5 (code bug): the second-variant simply-supported deflection equation
violates the boundary condition `deflection(L) = 0`: at `L = 1`, `EI = 1`,
`w = 6`, `j2 = 1` it yields `y = 2000` at `x = L`, not `0`; the primary
variant satisfies `deflection(0) = deflection(L) = 0` at the same input. -/
theorem C5_variant2_deflection_boundary_violation :
    (variant2.simplySupported.getDeflectionEquation
        (Beam.mk 1 0 (Material.mk "m" (MaterialProps.mk 1))) 6
        (Env.mk 1 0) 1).y = 2000 ∧
    ((2000:ℚ) ≠ 0) ∧
    (BeamAnalysis.analyzer.simplySupported.getDeflectionEquation
        (Beam.mk 1 0 (Material.mk "m" (MaterialProps.mk 1))) 6 0).y = 0 ∧
    (BeamAnalysis.analyzer.simplySupported.getDeflectionEquation
        (Beam.mk 1 0 (Material.mk "m" (MaterialProps.mk 1))) 6 1).y = 0 := by
  refine ⟨?_, by norm_num, ?_, ?_⟩ <;>
    norm_num [variant2.simplySupported.getDeflectionEquation,
      BeamAnalysis.analyzer.simplySupported.getDeflectionEquation]

/-- C6 (code bug): beyond the total length the two-span bending moment
returns `0`, but the general (`L1 ≠ L2`) branch of the shear equation
leaves `V` unassigned — at `L1 = 3`, `L2 = 5`, `w = 10`, `x = 9` the
shear `y` is the JS `undefined` (`none`), not `0`. -/
theorem C6_twoSpan_shear_undefined_beyond_domain :
    (BeamAnalysis.analyzer.twoSpanUnequal.getShearForceEquation
        (Beam.mk 3 5 (Material.mk "m" (MaterialProps.mk 1))) 10 9).y = none ∧
    (BeamAnalysis.analyzer.twoSpanUnequal.getBendingMomentEquation
        (Beam.mk 3 5 (Material.mk "m" (MaterialProps.mk 1))) 10 9).y = 0 := by
  constructor <;>
    norm_num [BeamAnalysis.analyzer.twoSpanUnequal.getShearForceEquation,
      BeamAnalysis.analyzer.twoSpanUnequal.getBendingMomentEquation,
      Beam.calculateReactions]

/-- C9: the two-span deflection closure derives its reactions from its own
closed form (`deflectionR1`), not from `calculateReactions`; at equal
spans `L1 = L2 = L > 0` and `w > 0` the internal `R1` is `5·w·L/4` while
the solver returns `3·w·L/8` — inconsistent values. -/
theorem C9_deflection_reactions_inconsistent (beam : Beam) (w L : ℚ)
    (hw : 0 < w) (hL : 0 < L) :
    BeamAnalysis.analyzer.twoSpanUnequal.deflectionR1 w L L = 5 * w * L / 4 ∧
    (beam.calculateReactions w L L).R1 = 3 * w * L / 8 ∧
    BeamAnalysis.analyzer.twoSpanUnequal.deflectionR1 w L L
      ≠ (beam.calculateReactions w L L).R1 := by
  have hL' : L ≠ 0 := ne_of_gt hL
  have e1 : BeamAnalysis.analyzer.twoSpanUnequal.deflectionR1 w L L = 5 * w * L / 4 := by
    unfold BeamAnalysis.analyzer.twoSpanUnequal.deflectionR1
    field_simp
    ring
  have e2 : (beam.calculateReactions w L L).R1 = 3 * w * L / 8 := by
    simp only [Beam.calculateReactions]
    field_simp
    ring
  refine ⟨e1, e2, ?_⟩
  rw [e1, e2]
  have hwL : 0 < w * L := mul_pos hw hL
  intro hcontra
  nlinarith

/-- Witness for C9 at `w = 10`, `L = 4` (internal `R1 = 50`, solver
`R1 = 15`). -/
theorem C9_deflection_reactions_inconsistent_witness :
    (0:ℚ) < 10 ∧ (0:ℚ) < 4 ∧
    (BeamAnalysis.analyzer.twoSpanUnequal.deflectionR1 10 4 4 = 5 * 10 * 4 / 4 ∧
     ((Beam.mk 4 4 steelW).calculateReactions 10 4 4).R1 = 3 * 10 * 4 / 8 ∧
     BeamAnalysis.analyzer.twoSpanUnequal.deflectionR1 10 4 4
       ≠ ((Beam.mk 4 4 steelW).calculateReactions 10 4 4).R1) :=
  ⟨by norm_num, by norm_num,
    C9_deflection_reactions_inconsistent (Beam.mk 4 4 steelW) 10 4
      (by norm_num) (by norm_num)⟩

/-- C7: at equal spans (`secondarySpan = primarySpan > 0`) and
`x ∈ [0, L1+L2]`, the `L1 === L2` special-case branch of each two-span
equation returns exactly what the general unequal-span branch would
return for the same inputs. -/
theorem C7_equalSpan_branch_redundant (beam : Beam) (load : ℚ) (env : Env) (x : ℚ)
    (heq : beam.secondarySpan = beam.primarySpan)
    (hL : 0 < beam.primarySpan)
    (hx0 : 0 ≤ x) (hx1 : x ≤ beam.primarySpan + beam.secondarySpan) :
    BeamAnalysis.analyzer.twoSpanUnequal.getDeflectionEquation beam load env x
      = BeamAnalysis.analyzer.twoSpanUnequal.deflectionGeneralCase beam load env x ∧
    BeamAnalysis.analyzer.twoSpanUnequal.getBendingMomentEquation beam load x
      = BeamAnalysis.analyzer.twoSpanUnequal.momentGeneralCase beam load x ∧
    BeamAnalysis.analyzer.twoSpanUnequal.getShearForceEquation beam load x
      = BeamAnalysis.analyzer.twoSpanUnequal.shearGeneralCase beam load x := by
  refine ⟨?_, ?_, ?_⟩
  · simp only [BeamAnalysis.analyzer.twoSpanUnequal.getDeflectionEquation,
      BeamAnalysis.analyzer.twoSpanUnequal.deflectionGeneralCase, ite_self]
  · simp only [BeamAnalysis.analyzer.twoSpanUnequal.getBendingMomentEquation,
      BeamAnalysis.analyzer.twoSpanUnequal.momentGeneralCase, ite_self]
  · rw [heq] at hx1
    simp only [BeamAnalysis.analyzer.twoSpanUnequal.getShearForceEquation,
      BeamAnalysis.analyzer.twoSpanUnequal.shearGeneralCase, heq,
      eq_self_iff_true, if_true]
    rcases eq_or_lt_of_le hx0 with h0 | h0
    · have hx : x = 0 := h0.symm
      subst hx
      have f1 : ¬ (beam.primarySpan + beam.primarySpan < 0) := by linarith
      have f2 : (0:ℚ) ≤ beam.primarySpan := hL.le
      simp [f1, f2]
    · rcases lt_trichotomy x beam.primarySpan with h1 | h1 | h1
      · have f1 : ¬ (beam.primarySpan + beam.primarySpan < x) := by linarith
        have f2 : x ≤ beam.primarySpan := h1.le
        have f3 : ¬ (x = 0) := by
          intro hh; rw [hh] at h0; exact lt_irrefl 0 h0
        simp [f1, f2, f3, h1]
      · subst h1
        have f1 : ¬ (beam.primarySpan + beam.primarySpan < beam.primarySpan) := by
          linarith
        have f3 : ¬ (beam.primarySpan = 0) := by
          intro hh; rw [hh] at hL; exact lt_irrefl 0 hL
        have f4 : ¬ (beam.primarySpan < beam.primarySpan) := lt_irrefl _
        simp [f1, f3, f4]
      · rcases eq_or_lt_of_le hx1 with h2 | h2
        · subst h2
          have f1 : ¬ (beam.primarySpan + beam.primarySpan
              < beam.primarySpan + beam.primarySpan) := lt_irrefl _
          have f2 : ¬ (beam.primarySpan + beam.primarySpan ≤ beam.primarySpan) := by
            linarith
          have f3 : ¬ (beam.primarySpan + beam.primarySpan = 0) := by
            intro hh; linarith
          have f4 : ¬ (beam.primarySpan + beam.primarySpan < beam.primarySpan) := by
            linarith
          have f5 : ¬ (beam.primarySpan + beam.primarySpan = beam.primarySpan) := by
            intro hh; linarith
          simp [f1, f2, f3, f4, f5]
        · have f1 : ¬ (beam.primarySpan + beam.primarySpan < x) := by linarith
          have f2 : ¬ (x ≤ beam.primarySpan) := by linarith
          have f3 : ¬ (x = 0) := by intro hh; rw [hh] at h1; linarith
          have f4 : ¬ (x < beam.primarySpan) := by linarith
          have f5 : ¬ (x = beam.primarySpan) := by
            intro hh; rw [hh] at h1; exact lt_irrefl _ h1
          simp [f1, f2, f3, f4, f5, h2]

/-- Witness for C7 at `L1 = L2 = 4`, `w = 10`, `j2 = 1`, `x = 2`. -/
theorem C7_equalSpan_branch_redundant_witness :
    (Beam.mk 4 4 steelW).secondarySpan = (Beam.mk 4 4 steelW).primarySpan ∧
    (0:ℚ) < (Beam.mk 4 4 steelW).primarySpan ∧
    (0:ℚ) ≤ 2 ∧
    (2:ℚ) ≤ (Beam.mk 4 4 steelW).primarySpan + (Beam.mk 4 4 steelW).secondarySpan ∧
    (BeamAnalysis.analyzer.twoSpanUnequal.getDeflectionEquation (Beam.mk 4 4 steelW)
        10 (Env.mk 1 0) 2
      = BeamAnalysis.analyzer.twoSpanUnequal.deflectionGeneralCase (Beam.mk 4 4 steelW)
        10 (Env.mk 1 0) 2 ∧
    BeamAnalysis.analyzer.twoSpanUnequal.getBendingMomentEquation (Beam.mk 4 4 steelW)
        10 2
      = BeamAnalysis.analyzer.twoSpanUnequal.momentGeneralCase (Beam.mk 4 4 steelW)
        10 2 ∧
    BeamAnalysis.analyzer.twoSpanUnequal.getShearForceEquation (Beam.mk 4 4 steelW)
        10 2
      = BeamAnalysis.analyzer.twoSpanUnequal.shearGeneralCase (Beam.mk 4 4 steelW)
        10 2) :=
  ⟨rfl, by norm_num [Beam.primarySpan], by norm_num,
    by norm_num [Beam.primarySpan, Beam.secondarySpan],
    C7_equalSpan_branch_redundant (Beam.mk 4 4 steelW) 10 (Env.mk 1 0) 2 rfl
      (by norm_num [Beam.primarySpan]) (by norm_num)
      (by norm_num [Beam.primarySpan, Beam.secondarySpan])⟩

/-- C8 counterexample: the two-span deflection closure re-reads the
ambient `j2` on every call — at identical `beam`, `load` and `x`, two
ambient states differing only in `j2` (1 vs 2) give different `y`. -/
theorem C8_deflection_rereads_ambient_j2 :
    (BeamAnalysis.analyzer.twoSpanUnequal.getDeflectionEquation
        (Beam.mk 4 4 (Material.mk "m" (MaterialProps.mk 10000000))) 10
        (Env.mk 1 0) 2).y
      ≠ (BeamAnalysis.analyzer.twoSpanUnequal.getDeflectionEquation
        (Beam.mk 4 4 (Material.mk "m" (MaterialProps.mk 10000000))) 10
        (Env.mk 2 0) 2).y := by
  norm_num [BeamAnalysis.analyzer.twoSpanUnequal.getDeflectionEquation,
    BeamAnalysis.analyzer.twoSpanUnequal.deflectionR1]

/-- C8 (amended): every equation is a deterministic function of `x`, the
closed-over beam/load, and the ambient `j2` value at evaluation time:
ambient states agreeing on `j2` (whatever the rest of the page state)
give identical outputs for all engine equations and for the
second-variant simply-supported deflection. -/
theorem C8_equations_depend_only_on_j2 (beam : Beam) (load : ℚ)
    (env1 env2 : Env) (x : ℚ) (h : env1.j2 = env2.j2) :
    (∀ k, BeamAnalysis.deflectionEquationFor k beam load env1 x
        = BeamAnalysis.deflectionEquationFor k beam load env2 x) ∧
    (∀ k, BeamAnalysis.momentEquationFor k beam load env1 x
        = BeamAnalysis.momentEquationFor k beam load env2 x) ∧
    (∀ k, BeamAnalysis.shearEquationFor k beam load env1 x
        = BeamAnalysis.shearEquationFor k beam load env2 x) ∧
    variant2.simplySupported.getDeflectionEquation beam load env1 x
      = variant2.simplySupported.getDeflectionEquation beam load env2 x := by
  obtain ⟨j1, o1⟩ := env1
  obtain ⟨jv, o2⟩ := env2
  have h' : j1 = jv := h
  subst h'
  exact ⟨fun k => by cases k <;> rfl, fun k => by cases k <;> rfl,
    fun k => by cases k <;> rfl, rfl⟩

/-- Witness for C8 (amended) at two ambient states sharing `j2 = 5` but
differing elsewhere. -/
theorem C8_equations_depend_only_on_j2_witness :
    (Env.mk 5 0).j2 = (Env.mk 5 99).j2 ∧
    ((∀ k, BeamAnalysis.deflectionEquationFor k (Beam.mk 4 4 steelW) 10 (Env.mk 5 0) 2
        = BeamAnalysis.deflectionEquationFor k (Beam.mk 4 4 steelW) 10 (Env.mk 5 99) 2) ∧
     (∀ k, BeamAnalysis.momentEquationFor k (Beam.mk 4 4 steelW) 10 (Env.mk 5 0) 2
        = BeamAnalysis.momentEquationFor k (Beam.mk 4 4 steelW) 10 (Env.mk 5 99) 2) ∧
     (∀ k, BeamAnalysis.shearEquationFor k (Beam.mk 4 4 steelW) 10 (Env.mk 5 0) 2
        = BeamAnalysis.shearEquationFor k (Beam.mk 4 4 steelW) 10 (Env.mk 5 99) 2) ∧
     variant2.simplySupported.getDeflectionEquation (Beam.mk 4 4 steelW) 10 (Env.mk 5 0) 2
        = variant2.simplySupported.getDeflectionEquation (Beam.mk 4 4 steelW) 10
          (Env.mk 5 99) 2) :=
  ⟨rfl, C8_equations_depend_only_on_j2 (Beam.mk 4 4 steelW) 10
    (Env.mk 5 0) (Env.mk 5 99) 2 rfl⟩

/-- C10: for `L > 0`, `w > 0`, `EI > 0` and `x ∈ [0, L]`, the
simply-supported deflection (primary variant) is non-positive: the factor
`L³ − 2·L·x² + x³` is non-negative on `[0, L]` and the formula carries a
leading minus sign. -/
theorem C10_simplySupported_deflection_nonpos (beam : Beam) (w x : ℚ)
    (hL : 0 < beam.primarySpan) (hw : 0 < w)
    (hEI : 0 < beam.material.properties.EI)
    (hx0 : 0 ≤ x) (hxL : x ≤ beam.primarySpan) :
    (BeamAnalysis.analyzer.simplySupported.getDeflectionEquation beam w x).y ≤ 0 := by
  simp only [BeamAnalysis.analyzer.simplySupported.getDeflectionEquation]
  set L := beam.primarySpan with hLdef
  have hfac : (L - x) * (L * L + x * (L - x)) = L ^ 3 - 2 * L * x ^ 2 + x ^ 3 := by
    ring
  have hf : 0 ≤ L ^ 3 - 2 * L * x ^ 2 + x ^ 3 := by
    rw [← hfac]
    exact mul_nonneg (sub_nonneg.mpr hxL)
      (add_nonneg (mul_nonneg hL.le hL.le)
        (mul_nonneg hx0 (sub_nonneg.mpr hxL)))
  have hEI' : (0:ℚ) < beam.material.properties.EI / 100000000 := by positivity
  have ha : 0 ≤ (w * x) / (24 * (beam.material.properties.EI / 100000000)) :=
    div_nonneg (mul_nonneg hw.le hx0) (by positivity)
  have hprod : 0 ≤ (w * x) / (24 * (beam.material.properties.EI / 100000000))
      * (L ^ 3 - 2 * L * x ^ 2 + x ^ 3) * 1000 := by
    have := mul_nonneg ha hf
    nlinarith
  linarith

/-- Witness for C10 at `L = 4`, `w = 10`, `EI = 1e8`, `x = 2`. -/
theorem C10_simplySupported_deflection_nonpos_witness :
    (0:ℚ) < (Beam.mk 4 0 steelW).primarySpan ∧ (0:ℚ) < 10 ∧
    (0:ℚ) < (Beam.mk 4 0 steelW).material.properties.EI ∧
    (0:ℚ) ≤ 2 ∧ (2:ℚ) ≤ (Beam.mk 4 0 steelW).primarySpan ∧
    (BeamAnalysis.analyzer.simplySupported.getDeflectionEquation
        (Beam.mk 4 0 steelW) 10 2).y ≤ 0 :=
  ⟨by norm_num [Beam.primarySpan], by norm_num,
    by norm_num [Beam.material, Material.properties, steelW],
    by norm_num, by norm_num [Beam.primarySpan],
    C10_simplySupported_deflection_nonpos (Beam.mk 4 0 steelW) 10 2
      (by norm_num [Beam.primarySpan]) (by norm_num)
      (by norm_num [Beam.material, Material.properties, steelW])
      (by norm_num) (by norm_num [Beam.primarySpan])⟩
